import Mathlib

/-!
Verification of the NewsFlash error-handling and language-fallback pipeline.

This file gives a shallow embedding of the core functions of
`language_service.py` and `error_handler.py` and proves the specified
properties about them.

Modelling conventions:
* Python strings are modelled as `List Char`; `str.lower()` is `pyLower`
  (ASCII case folding, which covers every string the catalog and the
  error-indicator lists contain) and `str.strip()` is `pyStrip`.
* Arguments that may be `None` or a non-string value are modelled by
  `PyStrInput` (`pyNone` for `None`, `pyStr s` for a string, `pyOther`
  for any other value; the code only ever asks `isinstance(x, str)` of
  such values, so all non-string non-None values behave alike).
* An exception is identified with its message (`str(error)`), which is
  the only part of an exception the classified code inspects.
* A fallible callable is an `Except (List Char) α` (or a function into
  it), `.error e` meaning "raises an exception with message `e`".
-/

set_option autoImplicit false

namespace NewsFlash

/-- ASCII case folding, the model of Python `str.lower()`. -/
def pyLower (s : List Char) : List Char := s.map Char.toLower

/-- Strip leading and trailing whitespace, the model of Python `str.strip()`. -/
def pyStrip (s : List Char) : List Char :=
  ((s.dropWhile Char.isWhitespace).reverse.dropWhile Char.isWhitespace).reverse

/-- A Python value passed where a string is expected: `None`, an actual
string, or any other (non-string) value. -/
inductive PyStrInput where
  | pyNone
  | pyStr (s : List Char)
  | pyOther
deriving DecidableEq

/-- Metadata record of one supported language (`SUPPORTED_LANGUAGES` values). -/
structure LangMeta where
  name : List Char
  native : List Char
  tts_code : List Char
  enabled : Bool
deriving DecidableEq

/-- The `LanguageService.SUPPORTED_LANGUAGES` table. -/
def SUPPORTED_LANGUAGES : List (List Char × LangMeta) :=
  [ ("en".toList, ⟨"English".toList, "English".toList, "en".toList, true⟩),
    ("hi".toList, ⟨"Hindi".toList, "हिंदी".toList, "hi".toList, true⟩),
    ("mr".toList, ⟨"Marathi".toList, "मराठी".toList, "mr".toList, true⟩) ]

/-- The `LanguageService.DEFAULT_LANGUAGE` constant. -/
def DEFAULT_LANGUAGE : List Char := "en".toList

/-- Dictionary lookup `SUPPORTED_LANGUAGES.get(code)`. -/
def lookupLang (code : List Char) : List (List Char × LangMeta) → Option LangMeta
  | [] => none
  | e :: rest => if code = e.1 then some e.2 else lookupLang code rest

/-- `LanguageService.validate_language`: false for `None`, non-strings and
the empty string, else looks up the lowercased, stripped code and requires
it to be present and enabled. -/
def validate_language (language_code : PyStrInput) : Bool :=
  match language_code with
  | .pyNone => false
  | .pyOther => false
  | .pyStr s =>
    if s = [] then false
    else
      match lookupLang (pyStrip (pyLower s)) SUPPORTED_LANGUAGES with
      | none => false
      | some m => m.enabled

/-- `LanguageService.get_default_language`. -/
def get_default_language : List Char := DEFAULT_LANGUAGE

/-- `LanguageService.get_fallback_language`: the lowercased input if it
validates, else the default language.  Note the returned value is only
lowercased, not stripped. -/
def get_fallback_language (language_code : PyStrInput) : List Char :=
  if validate_language language_code then
    match language_code with
    | .pyStr s => pyLower s
    | _ => DEFAULT_LANGUAGE
  else DEFAULT_LANGUAGE

/-- The `retryable_indicators` list of `_is_retryable_error`. -/
def retryable_indicators : List (List Char) :=
  [ "timeout".toList, "connection".toList, "network".toList, "temporary".toList,
    "503".toList, "502".toList, "500".toList,
    "rate limit".toList, "429".toList, "quota exceeded".toList,
    "service unavailable".toList ]

/-- The `non_retryable_indicators` list of `_is_retryable_error`. -/
def non_retryable_indicators : List (List Char) :=
  [ "401".toList, "403".toList, "404".toList, "invalid api key".toList,
    "authentication".toList, "authorization".toList,
    "bad request".toList, "400".toList, "not found".toList ]

/-- Python `needle in hay` on strings: substring containment. -/
def containsSub (hay needle : List Char) : Bool := decide (needle <:+: hay)

/-- `_is_retryable_error`: lowercase the message, return false on the first
non-retryable indicator found, true on the first retryable indicator found,
and true by default for unknown errors. -/
def is_retryable_error (errMsg : List Char) : Bool :=
  let error_str := pyLower errMsg
  if non_retryable_indicators.any (fun ind => containsSub error_str ind) then false
  else if retryable_indicators.any (fun ind => containsSub error_str ind) then true
  else true

/-! ## The retry policy (`with_retry` in `error_handler.py`) -/

/-- Configuration default `Config.MAX_RETRY_ATTEMPTS`. -/
def MAX_RETRY_ATTEMPTS : Nat := 3

/-- Configuration default `Config.RETRY_DELAY` (seconds). -/
def RETRY_DELAY : ℚ := 1

/-- Python `x or d` defaulting for an optional integer argument: `None`
and the falsy value `0` are both replaced by the default. -/
def orDefaultNat (x : Option Nat) (d : Nat) : Nat :=
  match x with
  | none => d
  | some n => if n = 0 then d else n

/-- Python `x or d` defaulting for an optional numeric delay argument:
`None` and the falsy value `0` are both replaced by the default. -/
def orDefaultRat (x : Option ℚ) (d : ℚ) : ℚ :=
  match x with
  | none => d
  | some q => if q = 0 then d else q

/-- The error a `with_retry`-wrapped call can surface: either the original
exception re-raised unchanged (fatal path), or an `AIServiceError` wrapping
the last underlying exception message (exhaustion path; `none` when the
loop body never ran and `last_exception` was still `None`). -/
inductive RunError where
  | raised (e : List Char)
  | aiServiceError (last : Option (List Char))
deriving DecidableEq

deriving instance DecidableEq for Except

/-- Observable trace of one execution of a `with_retry`-wrapped call:
the outcome, how many times the wrapped function was invoked, and the
sequence of sleep durations performed between attempts. -/
structure RetryTrace (α : Type) where
  result : Except RunError α
  calls : Nat
  sleeps : List ℚ
deriving DecidableEq

/-- The `for attempt in range(max_attempts)` loop of `with_retry`, at
iteration `attempt` with `remaining` iterations still allowed (so
`remaining = max_attempts - attempt`; the Python guard
`attempt < max_attempts` is `0 < remaining`, and the no-sleep guard
`attempt < max_attempts - 1` is `0 < remaining - 1`).  `fn i` is the
outcome of the `i`-th invocation of the wrapped function.  On success the
value is returned; a non-retryable exception is re-raised at once; a
retryable exception on a non-final attempt sleeps `base_delay * 2^attempt`
(or `base_delay` without exponential backoff) and continues; after a
retryable failure of the final attempt the loop ends and an
`AIServiceError` wrapping the last exception is raised. -/
def with_retry_go {α : Type} (fn : Nat → Except (List Char) α) (base_delay : ℚ)
    (exponential_backoff : Bool) :
    (attempt remaining : Nat) → Option (List Char) → RetryTrace α
  | _, 0, last_exception => ⟨.error (.aiServiceError last_exception), 0, []⟩
  | attempt, remaining + 1, _ =>
    match fn attempt with
    | .ok v => ⟨.ok v, 1, []⟩
    | .error e =>
      if is_retryable_error e then
        if 0 < remaining then
          let delay := if exponential_backoff then base_delay * 2 ^ attempt else base_delay
          let rest := with_retry_go fn base_delay exponential_backoff
            (attempt + 1) remaining (some e)
          ⟨rest.result, rest.calls + 1, delay :: rest.sleeps⟩
        else
          ⟨.error (.aiServiceError (some e)), 1, []⟩
      else
        ⟨.error (.raised e), 1, []⟩

/-- `with_retry(max_attempts, base_delay, exponential_backoff)` applied to a
function: defaults are substituted for `None`/falsy arguments at decoration
time, then the retry loop runs from attempt 0 with all `max_attempts`
iterations remaining and no last exception. -/
def with_retry {α : Type} (max_attempts : Option Nat) (base_delay : Option ℚ)
    (exponential_backoff : Bool) (fn : Nat → Except (List Char) α) : RetryTrace α :=
  with_retry_go fn (orDefaultRat base_delay RETRY_DELAY) exponential_backoff
    0 (orDefaultNat max_attempts MAX_RETRY_ATTEMPTS) none

/-! ## The fallback manager (`FallbackManager` in `error_handler.py`) -/

/-- `FallbackManager.get_language_fallback_chain`: the lowercased requested
language when it validates, followed by the default language when the
default is not already present. -/
def get_language_fallback_chain (requested_language : PyStrInput) : List (List Char) :=
  let chain : List (List Char) :=
    if validate_language requested_language then
      match requested_language with
      | .pyStr s => [pyLower s]
      | _ => []
    else []
  if DEFAULT_LANGUAGE ∈ chain then chain else chain ++ [DEFAULT_LANGUAGE]

/-- `FallbackManager.get_sentiment_fallback`. -/
def get_sentiment_fallback : List Char := "neutral".toList

/-- Position of the first occurrence of `sep` in a list: `some (p, r)`
splits the list as `p ++ sep ++ r` at the leftmost occurrence, `none`
when `sep` (assumed nonempty) does not occur. -/
def findSep (sep : List Char) : List Char → Option (List Char × List Char)
  | [] => none
  | c :: cs =>
    if sep <+: c :: cs then some ([], (c :: cs).drop sep.length)
    else
      match findSep sep cs with
      | some (p, r) => some (c :: p, r)
      | none => none

/-- Fuelled splitter on a separator; each `some` step of `findSep` removes
at least one character, so fuel `l.length + 1` in `pySplit` never runs out
for a nonempty separator. -/
def splitOnFuel (sep : List Char) : Nat → List Char → List (List Char)
  | 0, l => [l]
  | fuel + 1, l =>
    match findSep sep l with
    | none => [l]
    | some (p, r) => p :: splitOnFuel sep fuel r

/-- Python `l.split(sep)` for a nonempty separator: the fragments between
consecutive non-overlapping leftmost occurrences of `sep`, empty fragments
kept. -/
def pySplit (l sep : List Char) : List (List Char) := splitOnFuel sep (l.length + 1) l

/-- `FallbackManager.create_fallback_summary`: sentinel for empty or
whitespace-only text; the stripped text when it fits `max_length`; else the
first two `". "`-separated fragments re-joined with a trailing period when
that fits; else the stripped `max_length`-character prefix plus `"..."`. -/
def create_fallback_summary (article_text : List Char) (max_length : Nat) : List Char :=
  if article_text = [] ∨ (pyStrip article_text).length = 0 then
    "No content available for summary.".toList
  else
    let t := pyStrip article_text
    if t.length ≤ max_length then t
    else
      let sentences := pySplit t ". ".toList
      if 2 ≤ sentences.length ∧
          (List.intercalate ". ".toList (sentences.take 2) ++ ".".toList).length ≤ max_length then
        List.intercalate ". ".toList (sentences.take 2) ++ ".".toList
      else
        pyStrip (t.take max_length) ++ "...".toList

/-! ## The convenience handlers (`error_handler.py`) -/

/-- Outcome of `handle_language_operation`: a value, a `LanguageError`
wrapping the last failure after the whole chain failed, or the (in fact
unreachable) `LanguageError` for an exhausted loop. -/
inductive LangOpOutcome (α : Type) where
  | ok (v : α)
  | languageErrorAllFailed (e : List Char)
  | languageErrorNoValid
deriving DecidableEq

/-- The `for lang in fallback_chain` loop of `handle_language_operation`:
try each candidate in order, return the first success, and on a failure of
the candidate equal to `chain[-1]` raise a `LanguageError` wrapping it.
Also records the list of candidate languages actually invoked. -/
def handle_language_operation_go {α : Type} (fn : List Char → Except (List Char) α)
    (lastLang : List Char) : List (List Char) → LangOpOutcome α × List (List Char)
  | [] => (.languageErrorNoValid, [])
  | lang :: rest =>
    match fn lang with
    | .ok v => (.ok v, [lang])
    | .error e =>
      if lang = lastLang then (.languageErrorAllFailed e, [lang])
      else
        let out := handle_language_operation_go fn lastLang rest
        (out.1, lang :: out.2)

/-- `handle_language_operation`: build the fallback chain for the requested
language and drive the operation through it. -/
def handle_language_operation {α : Type} (language : PyStrInput)
    (fn : List Char → Except (List Char) α) : LangOpOutcome α × List (List Char) :=
  let chain := get_language_fallback_chain language
  handle_language_operation_go fn (chain.getLastD []) chain

/-- Configuration default `Config.SENTIMENT_FALLBACK_ENABLED`. -/
def SENTIMENT_FALLBACK_ENABLED : Bool := true

/-- Outcome of a sentiment wrapper: a returned value or a raised
`SentimentAnalysisError` wrapping the underlying message. -/
inductive SentimentOutcome where
  | ok (v : List Char)
  | sentimentAnalysisError (e : List Char)
deriving DecidableEq

/-- `handle_sentiment_operation`: return the operation's value; on an
exception return the sentiment fallback when fallback is enabled, else
raise `SentimentAnalysisError`. -/
def handle_sentiment_operation (fallbackEnabled : Bool)
    (fn : Except (List Char) (List Char)) : SentimentOutcome :=
  match fn with
  | .ok v => .ok v
  | .error e =>
    if fallbackEnabled then .ok get_sentiment_fallback
    else .sentimentAnalysisError e

/-- The `with_sentiment_fallback(fallback_sentiment)` decorator applied to
one call of the wrapped function (default `fallback_sentiment` is
`"neutral"`). -/
def with_sentiment_fallback (fallback_sentiment : List Char) (fallbackEnabled : Bool)
    (fn : Except (List Char) (List Char)) : SentimentOutcome :=
  match fn with
  | .ok v => .ok v
  | .error e =>
    if fallbackEnabled then .ok fallback_sentiment
    else .sentimentAnalysisError e

/-- A function whose every invocation raises a retryable-classified
(timeout) error; used to instantiate the retry theorems. -/
def alwaysTimeout : Nat → Except (List Char) Nat :=
  fun _ => .error "timeout".toList

/-! ## Claim theorems -/

/-- Sanity check: the embedded splitter agrees with Python `str.split` on
representative inputs, including leading, trailing and absent separators. -/
theorem pySplit_sanity :
    pySplit "a. b. c".toList ". ".toList = ["a".toList, "b".toList, "c".toList] ∧
    pySplit "abc".toList ". ".toList = ["abc".toList] ∧
    pySplit ". x".toList ". ".toList = ["".toList, "x".toList] ∧
    pySplit "x. ".toList ". ".toList = ["x".toList, "".toList] := by decide

/-- C1 counterexample: the whitespace-padded supported code `" EN "`
validates and its normalized (lowercased, trimmed) form is `"en"`, yet
`get_fallback_language` does not return that normalized form (it returns
the merely lowercased `" en "`). -/
theorem c1_counterexample :
    validate_language (.pyStr " EN ".toList) = true ∧
    pyStrip (pyLower " EN ".toList) = "en".toList ∧
    get_fallback_language (.pyStr " EN ".toList) ≠ "en".toList ∧
    get_fallback_language (.pyStr " EN ".toList) = " en ".toList := by decide

/-- C1 (amended): `get_fallback_language` is total and never returns an
empty/null result; for every supported catalog code (any letter case, with
surrounding whitespace) it returns the lowercased — but not trimmed —
input, and for every unsupported input (including `None`, non-strings,
empty and whitespace-only strings) it returns the default code `"en"`. -/
theorem c1_fallback_for_total (x : PyStrInput) :
    get_fallback_language x ≠ [] ∧
    (validate_language x = false → get_fallback_language x = DEFAULT_LANGUAGE) ∧
    (∀ s, x = .pyStr s → validate_language x = true → get_fallback_language x = pyLower s) := by
  refine ⟨?_, ?_, ?_⟩
  · cases x with
    | pyNone => decide
    | pyOther => decide
    | pyStr s =>
      by_cases hv : validate_language (.pyStr s) = true
      · have hs : s ≠ [] := by
          intro hnil
          rw [hnil] at hv
          exact absurd hv (by decide)
        simp [get_fallback_language, hv, pyLower, hs]
      · simp only [Bool.not_eq_true] at hv
        simp [get_fallback_language, hv, DEFAULT_LANGUAGE]
  · intro hv
    cases x <;> simp [get_fallback_language, hv]
  · intro s hx hv
    subst hx
    simp [get_fallback_language, hv]

/-- C1 witness: instantiating the amended claim at the supported code
`"HI"` and at the unsupported input `None`. -/
theorem c1_fallback_for_total_witness :
    get_fallback_language (.pyStr "HI".toList) = pyLower "HI".toList ∧
    get_fallback_language .pyNone = DEFAULT_LANGUAGE :=
  ⟨(c1_fallback_for_total (.pyStr "HI".toList)).2.2 "HI".toList rfl (by decide),
   (c1_fallback_for_total .pyNone).2.1 (by decide)⟩

/-- C2 counterexample: the message `"Resource connection not found"`
contains the transient indicator `"connection"`, yet the classifier
returns `false` (the fatal indicator `"not found"` wins). -/
theorem c2_counterexample :
    "connection".toList ∈ retryable_indicators ∧
    "connection".toList <:+: pyLower "Resource connection not found".toList ∧
    is_retryable_error "Resource connection not found".toList = false := by decide

/-- C2 (amended): a message containing (case-insensitively) one of the
transient indicators is classified retryable, provided it contains none of
the fatal indicators (fatal indicators are checked first and win). -/
theorem c2_transient_retryable (msg : List Char)
    (htrans : ∃ ind ∈ retryable_indicators, ind <:+: pyLower msg)
    (hfatal : ∀ ind ∈ non_retryable_indicators, ¬ ind <:+: pyLower msg) :
    is_retryable_error msg = true := by
  have h1 : non_retryable_indicators.any (fun i => containsSub (pyLower msg) i) = false := by
    rw [List.any_eq_false]
    intro ind hm
    simpa [containsSub] using hfatal ind hm
  obtain ⟨ind, hm, hs⟩ := htrans
  have h2 : retryable_indicators.any (fun i => containsSub (pyLower msg) i) = true :=
    List.any_eq_true.mpr ⟨ind, hm, by simpa [containsSub] using hs⟩
  simp [is_retryable_error, h1, h2]

/-- C2 witness: `"Network TIMEOUT while reading"` contains transient
indicators and no fatal one, and is classified retryable. -/
theorem c2_transient_retryable_witness :
    is_retryable_error "Network TIMEOUT while reading".toList = true :=
  c2_transient_retryable "Network TIMEOUT while reading".toList
    ⟨"timeout".toList, by decide, by decide⟩ (by decide)

/-- C3: a message containing (case-insensitively) any fatal indicator is
classified non-retryable, regardless of what else the message contains
(the fatal scan runs before the transient scan). -/
theorem c3_fatal_not_retryable (msg ind : List Char)
    (hmem : ind ∈ non_retryable_indicators) (hsub : ind <:+: pyLower msg) :
    is_retryable_error msg = false := by
  have hany : non_retryable_indicators.any (fun i => containsSub (pyLower msg) i) = true :=
    List.any_eq_true.mpr ⟨ind, hmem, by simpa [containsSub] using hsub⟩
  simp [is_retryable_error, hany]

/-- C3 witness: `"Connection error: 401 Unauthorized"` contains the fatal
indicator `"401"` (and the transient indicator `"connection"`) and is
classified non-retryable. -/
theorem c3_fatal_not_retryable_witness :
    is_retryable_error "Connection error: 401 Unauthorized".toList = false :=
  c3_fatal_not_retryable "Connection error: 401 Unauthorized".toList "401".toList
    (by decide) (by decide)

/-- Shape lemma for the fallback chain: it is either exactly
`[DEFAULT_LANGUAGE]`, or `[pyLower s, DEFAULT_LANGUAGE]` for a validated
string input whose lowercasing differs from the default. -/
theorem chain_cases (x : PyStrInput) :
    get_language_fallback_chain x = [DEFAULT_LANGUAGE] ∨
    ∃ s, x = .pyStr s ∧ validate_language x = true ∧ pyLower s ≠ DEFAULT_LANGUAGE ∧
      get_language_fallback_chain x = [pyLower s, DEFAULT_LANGUAGE] := by
  cases x with
  | pyNone => left; decide
  | pyOther => left; decide
  | pyStr s =>
    by_cases hv : validate_language (.pyStr s) = true
    · by_cases hd : pyLower s = DEFAULT_LANGUAGE
      · left
        simp [get_language_fallback_chain, hv, hd]
      · right
        refine ⟨s, rfl, hv, hd, ?_⟩
        have hd' : DEFAULT_LANGUAGE ≠ pyLower s := fun h => hd h.symm
        simp [get_language_fallback_chain, hv, hd, hd']
    · left
      simp only [Bool.not_eq_true] at hv
      simp [get_language_fallback_chain, hv]

/-- C6: the language fallback chain is non-empty, duplicate-free, of
length 1 or 2, and always ends in the default `"en"`; an unsupported
(or `None`/non-string/empty) request yields `["en"]`, a supported request
lowercasing to the default yields `["en"]`, and a supported request with a
different lowercasing yields `[requested.lower(), "en"]`. -/
theorem c6_fallback_chain (x : PyStrInput) :
    get_language_fallback_chain x ≠ [] ∧
    (get_language_fallback_chain x).Nodup ∧
    (get_language_fallback_chain x).getLastD [] = DEFAULT_LANGUAGE ∧
    ((get_language_fallback_chain x).length = 1 ∨
      (get_language_fallback_chain x).length = 2) ∧
    (validate_language x = false → get_language_fallback_chain x = [DEFAULT_LANGUAGE]) ∧
    (∀ s, x = .pyStr s → validate_language x = true → pyLower s = DEFAULT_LANGUAGE →
      get_language_fallback_chain x = [DEFAULT_LANGUAGE]) ∧
    (∀ s, x = .pyStr s → validate_language x = true → pyLower s ≠ DEFAULT_LANGUAGE →
      get_language_fallback_chain x = [pyLower s, DEFAULT_LANGUAGE]) := by
  refine ⟨?_, ?_, ?_, ?_, ?_, ?_, ?_⟩
  · rcases chain_cases x with h | ⟨s, _, _, _, h⟩ <;> simp [h]
  · rcases chain_cases x with h | ⟨s, _, _, hd, h⟩
    · simp [h]
    · simp [h, hd]
  · rcases chain_cases x with h | ⟨s, _, _, _, h⟩ <;> simp [h]
  · rcases chain_cases x with h | ⟨s, _, _, _, h⟩
    · exact Or.inl (by simp [h])
    · exact Or.inr (by simp [h])
  · intro hv
    cases x with
    | pyNone => decide
    | pyOther => decide
    | pyStr s => simp [get_language_fallback_chain, hv]
  · intro s hx hv hd
    subst hx
    simp [get_language_fallback_chain, hv, hd]
  · intro s hx hv hd
    subst hx
    have hd' : DEFAULT_LANGUAGE ≠ pyLower s := fun h => hd h.symm
    simp [get_language_fallback_chain, hv, hd, hd']

/-- C6 witness: instantiating the claim at the supported non-default code
`"HI"` and at the unsupported input `None`. -/
theorem c6_fallback_chain_witness :
    get_language_fallback_chain (.pyStr "HI".toList) = [pyLower "HI".toList, DEFAULT_LANGUAGE] ∧
    get_language_fallback_chain .pyNone = [DEFAULT_LANGUAGE] :=
  ⟨(c6_fallback_chain (.pyStr "HI".toList)).2.2.2.2.2.2 "HI".toList rfl (by decide) (by decide),
   (c6_fallback_chain .pyNone).2.2.2.2.1 (by decide)⟩

/-- C8: for one call of a sentiment operation under either wrapper
(`handle_sentiment_operation` or the `with_sentiment_fallback` decorator
with its default fallback value): a successful operation's result is
returned unchanged; with fallback enabled — the configuration default,
`SENTIMENT_FALLBACK_ENABLED = true` — a failing operation yields the fixed
default sentiment `"neutral"` and nothing is raised; and a
`SentimentAnalysisError` is raised if and only if fallback is disabled and
the operation fails. -/
theorem c8_sentiment_wrappers (fallbackEnabled : Bool)
    (fn : Except (List Char) (List Char)) :
    SENTIMENT_FALLBACK_ENABLED = true ∧
    (∀ v, fn = .ok v →
      handle_sentiment_operation fallbackEnabled fn = .ok v ∧
      with_sentiment_fallback "neutral".toList fallbackEnabled fn = .ok v) ∧
    (∀ e, fn = .error e →
      handle_sentiment_operation true fn = .ok "neutral".toList ∧
      with_sentiment_fallback "neutral".toList true fn = .ok "neutral".toList) ∧
    ((∃ e, handle_sentiment_operation fallbackEnabled fn = .sentimentAnalysisError e) ↔
      fallbackEnabled = false ∧ ∃ e, fn = .error e) ∧
    ((∃ e, with_sentiment_fallback "neutral".toList fallbackEnabled fn =
        .sentimentAnalysisError e) ↔
      fallbackEnabled = false ∧ ∃ e, fn = .error e) := by
  refine ⟨rfl, ?_, ?_, ?_, ?_⟩
  · intro v hv
    subst hv
    exact ⟨rfl, rfl⟩
  · intro e he
    subst he
    exact ⟨rfl, rfl⟩
  · cases fn with
    | ok v => simp [handle_sentiment_operation]
    | error e =>
      cases fallbackEnabled <;>
        simp [handle_sentiment_operation, get_sentiment_fallback]
  · cases fn with
    | ok v => simp [with_sentiment_fallback]
    | error e => cases fallbackEnabled <;> simp [with_sentiment_fallback]

/-- C8 witness: instantiating the claim at a failing operation with
fallback enabled (default configuration) and at a succeeding operation. -/
theorem c8_sentiment_wrappers_witness :
    handle_sentiment_operation true (.error "boom".toList) = .ok "neutral".toList ∧
    handle_sentiment_operation true (.ok "positive".toList) = .ok "positive".toList :=
  ⟨((c8_sentiment_wrappers true (.error "boom".toList)).2.2.1 "boom".toList rfl).1,
   ((c8_sentiment_wrappers true (.ok "positive".toList)).2.1 "positive".toList rfl).1⟩

/-- C9 counterexample: for the text `"aaaaaaaaa bbbbbbbbbb"` (no outer
whitespace, longer than `max_length = 10`, no `". "` boundary) the claim
predicts the plain character truncation `"aaaaaaaaa "` plus `"..."`, but
the code strips the truncated prefix before appending the ellipsis,
producing `"aaaaaaaaa..."`. -/
theorem c9_counterexample :
    pyStrip "aaaaaaaaa bbbbbbbbbb".toList = "aaaaaaaaa bbbbbbbbbb".toList ∧
    10 < "aaaaaaaaa bbbbbbbbbb".toList.length ∧
    (pySplit "aaaaaaaaa bbbbbbbbbb".toList ". ".toList).length < 2 ∧
    create_fallback_summary "aaaaaaaaa bbbbbbbbbb".toList 10 ≠
      "aaaaaaaaa bbbbbbbbbb".toList.take 10 ++ "...".toList ∧
    create_fallback_summary "aaaaaaaaa bbbbbbbbbb".toList 10 =
      "aaaaaaaaa...".toList := by decide

/-- C9 (amended): `create_fallback_summary` returns the sentinel for empty
or whitespace-only text; returns the trimmed text when it fits
`max_length`; for longer text returns the first two `". "`-separated
fragments joined with `". "` plus a trailing period when at least two
fragments exist and that join fits; and otherwise character-truncates the
trimmed text to `max_length`, strips the truncation, and appends `"..."`. -/
theorem c9_fallback_summary (article_text : List Char) (max_length : Nat) :
    (pyStrip article_text = [] →
      create_fallback_summary article_text max_length =
        "No content available for summary.".toList) ∧
    (pyStrip article_text ≠ [] → (pyStrip article_text).length ≤ max_length →
      create_fallback_summary article_text max_length = pyStrip article_text) ∧
    (pyStrip article_text ≠ [] → max_length < (pyStrip article_text).length →
      2 ≤ (pySplit (pyStrip article_text) ". ".toList).length →
      (List.intercalate ". ".toList
          ((pySplit (pyStrip article_text) ". ".toList).take 2) ++ ".".toList).length ≤
        max_length →
      create_fallback_summary article_text max_length =
        List.intercalate ". ".toList
          ((pySplit (pyStrip article_text) ". ".toList).take 2) ++ ".".toList) ∧
    (pyStrip article_text ≠ [] → max_length < (pyStrip article_text).length →
      ¬(2 ≤ (pySplit (pyStrip article_text) ". ".toList).length ∧
        (List.intercalate ". ".toList
            ((pySplit (pyStrip article_text) ". ".toList).take 2) ++ ".".toList).length ≤
          max_length) →
      create_fallback_summary article_text max_length =
        pyStrip ((pyStrip article_text).take max_length) ++ "...".toList) := by
  have hnil : article_text = [] → pyStrip article_text = [] := by
    intro h
    subst h
    rfl
  have hcond : pyStrip article_text ≠ [] →
      ¬(article_text = [] ∨ (pyStrip article_text).length = 0) := by
    intro hs
    rintro (h | h)
    · exact hs (hnil h)
    · exact hs (List.length_eq_zero.mp h)
  refine ⟨?_, ?_, ?_, ?_⟩
  · intro hs
    have hor : article_text = [] ∨ (pyStrip article_text).length = 0 :=
      Or.inr (by rw [hs]; rfl)
    unfold create_fallback_summary
    rw [if_pos hor]
  · intro hs hlen
    unfold create_fallback_summary
    rw [if_neg (hcond hs), if_pos hlen]
  · intro hs hlen h2 hfit
    have hgt : ¬(pyStrip article_text).length ≤ max_length := by omega
    unfold create_fallback_summary
    rw [if_neg (hcond hs), if_neg hgt, if_pos ⟨h2, hfit⟩]
  · intro hs hlen hno
    have hgt : ¬(pyStrip article_text).length ≤ max_length := by omega
    unfold create_fallback_summary
    rw [if_neg (hcond hs), if_neg hgt, if_neg hno]

/-- C9 witness: instantiating the amended claim on the four branches —
whitespace-only text, short text, a two-sentence join that fits, and the
strip-then-ellipsis truncation. -/
theorem c9_fallback_summary_witness :
    create_fallback_summary "   ".toList 200 = "No content available for summary.".toList ∧
    create_fallback_summary "Short text.".toList 200 = pyStrip "Short text.".toList ∧
    create_fallback_summary
        "First sentence. Second sentence. Third sentence not included.".toList 50 =
      List.intercalate ". ".toList
        ((pySplit (pyStrip
          "First sentence. Second sentence. Third sentence not included.".toList)
          ". ".toList).take 2) ++ ".".toList ∧
    create_fallback_summary "aaaaaaaaa cccccccccc".toList 10 =
      pyStrip ((pyStrip "aaaaaaaaa cccccccccc".toList).take 10) ++ "...".toList :=
  ⟨(c9_fallback_summary "   ".toList 200).1 (by decide),
   (c9_fallback_summary "Short text.".toList 200).2.1 (by decide) (by decide),
   (c9_fallback_summary
      "First sentence. Second sentence. Third sentence not included.".toList 50).2.2.1
     (by decide) (by decide) (by decide) (by decide),
   (c9_fallback_summary "aaaaaaaaa cccccccccc".toList 10).2.2.2
     (by decide) (by decide) (by decide)⟩

/-- Helper for C4: when every invocation from `attempt` on fails with a
retryable error, the retry loop performs all `remaining` invocations and
ends with an `AIServiceError` wrapping the message of the final one. -/
theorem with_retry_go_all_fail {α : Type} (fn : Nat → Except (List Char) α) (bd : ℚ)
    (expo : Bool) :
    ∀ (remaining attempt : Nat) (last : Option (List Char)), 0 < remaining →
      (∀ i, ∃ e, fn i = .error e ∧ is_retryable_error e = true) →
      (with_retry_go fn bd expo attempt remaining last).calls = remaining ∧
      ∃ e, fn (attempt + remaining - 1) = .error e ∧
        (with_retry_go fn bd expo attempt remaining last).result =
          .error (.aiServiceError (some e)) := by
  intro remaining
  induction remaining with
  | zero => omega
  | succ r ih =>
    intro attempt last _ hfail
    obtain ⟨e, he, hret⟩ := hfail attempt
    rcases Nat.eq_zero_or_pos r with hr | hr
    · subst hr
      refine ⟨?_, e, by simpa using he, ?_⟩ <;>
        simp [with_retry_go, he, hret]
    · have hrest := ih (attempt + 1) (some e) hr hfail
      obtain ⟨hcalls, e', he', hres'⟩ := hrest
      have harith : attempt + 1 + r - 1 = attempt + (r + 1) - 1 := by omega
      rw [harith] at he'
      refine ⟨?_, e', he', ?_⟩ <;>
        simp [with_retry_go, he, hret, hr, hcalls, hres']

/-- C4: a function that raises a retryable-classified error on every
invocation, run under `with_retry` with an explicit `max_attempts = n ≥ 1`,
is invoked exactly `n` times, after which an `AIServiceError` wrapping the
last underlying error is raised. -/
theorem c4_retry_exhaustion {α : Type} (n : Nat) (hn : 1 ≤ n) (base_delay : Option ℚ)
    (expo : Bool) (fn : Nat → Except (List Char) α)
    (hfail : ∀ i, ∃ e, fn i = .error e ∧ is_retryable_error e = true) :
    (with_retry (some n) base_delay expo fn).calls = n ∧
    ∃ e, fn (n - 1) = .error e ∧
      (with_retry (some n) base_delay expo fn).result = .error (.aiServiceError (some e)) := by
  have hne : ¬ n = 0 := by omega
  have hres : orDefaultNat (some n) MAX_RETRY_ATTEMPTS = n := by
    simp [orDefaultNat, hne]
  unfold with_retry
  rw [hres]
  simpa using with_retry_go_all_fail fn (orDefaultRat base_delay RETRY_DELAY) expo n 0 none
    (by omega) hfail

/-- C4 witness: the always-timing-out function under `max_attempts = 3` is
called exactly 3 times and ends in an `AIServiceError` wrapping the last
timeout. -/
theorem c4_retry_exhaustion_witness :
    (with_retry (some 3) none true alwaysTimeout).calls = 3 ∧
    ∃ e, alwaysTimeout (3 - 1) = .error e ∧
      (with_retry (some 3) none true alwaysTimeout).result = .error (.aiServiceError (some e)) :=
  c4_retry_exhaustion 3 (by decide) none true alwaysTimeout
    (fun _ => ⟨"timeout".toList, rfl, by decide⟩)

/-- C5: a function that raises a fatal-classified (non-retryable) error on
its first invocation, run under `with_retry` with any `max_attempts = n ≥ 1`,
is invoked exactly once, performs no retry-sleep, and the original error is
re-raised unchanged rather than wrapped in an `AIServiceError`. -/
theorem c5_fatal_short_circuit {α : Type} (n : Nat) (hn : 1 ≤ n) (base_delay : Option ℚ)
    (expo : Bool) (fn : Nat → Except (List Char) α) (e : List Char)
    (h0 : fn 0 = .error e) (hfatal : is_retryable_error e = false) :
    with_retry (some n) base_delay expo fn =
      ⟨.error (.raised e), 1, []⟩ := by
  have hne : ¬ n = 0 := by omega
  have hres : orDefaultNat (some n) MAX_RETRY_ATTEMPTS = n := by
    simp [orDefaultNat, hne]
  unfold with_retry
  rw [hres]
  obtain ⟨m, rfl⟩ : ∃ m, n = m + 1 := ⟨n - 1, by omega⟩
  simp [with_retry_go, h0, hfatal]

/-- C5 witness: a function raising `"401 Unauthorized"` on the first call,
under `max_attempts = 3`, is called once, sleeps never, and the original
error propagates unwrapped. -/
theorem c5_fatal_short_circuit_witness :
    with_retry (some 3) none true
        (fun _ => (.error "401 Unauthorized".toList : Except (List Char) Nat)) =
      ⟨.error (.raised "401 Unauthorized".toList), 1, []⟩ :=
  c5_fatal_short_circuit 3 (by decide) none true _ "401 Unauthorized".toList rfl (by decide)

/-- Helper for C10: once the loop is entered (`0 < remaining`), the wrapped
function is invoked at least once. -/
theorem with_retry_go_calls_pos {α : Type} (fn : Nat → Except (List Char) α) (bd : ℚ)
    (expo : Bool) (attempt remaining : Nat) (last : Option (List Char))
    (hr : 0 < remaining) :
    1 ≤ (with_retry_go fn bd expo attempt remaining last).calls := by
  obtain ⟨r, rfl⟩ : ∃ r, remaining = r + 1 := ⟨remaining - 1, by omega⟩
  unfold with_retry_go
  cases fn attempt with
  | ok v => simp
  | error e =>
    by_cases hret : is_retryable_error e = true <;>
      by_cases hr0 : 0 < r <;>
      simp [hret, hr0]

/-- Helper for C10: every sleep duration the retry loop performs is
`base_delay` or `base_delay * 2 ^ attempt`, hence positive whenever
`base_delay` is. -/
theorem with_retry_go_sleeps_pos {α : Type} (fn : Nat → Except (List Char) α) (bd : ℚ)
    (expo : Bool) (hbd : 0 < bd) :
    ∀ (remaining attempt : Nat) (last : Option (List Char)) (d : ℚ),
      d ∈ (with_retry_go fn bd expo attempt remaining last).sleeps → 0 < d := by
  intro remaining
  induction remaining with
  | zero =>
    intro attempt last d hd
    simp [with_retry_go] at hd
  | succ r ih =>
    intro attempt last d hd
    unfold with_retry_go at hd
    cases hfn : fn attempt with
    | ok v => simp [hfn] at hd
    | error e =>
      simp only [hfn] at hd
      by_cases hret : is_retryable_error e = true
      · by_cases hr0 : 0 < r
        · rw [if_pos hret, if_pos hr0] at hd
          simp only [List.mem_cons] at hd
          rcases hd with hd | hd
          · subst hd
            by_cases hexpo : expo = true <;>
              simp [hexpo, hbd, mul_pos, pow_pos]
          · exact ih (attempt + 1) (some e) d hd
        · rw [if_pos hret, if_neg hr0] at hd
          simp at hd
      · rw [if_neg hret] at hd
        simp at hd

/-- C10: explicitly passing the falsy values `max_attempts = 0` and
`base_delay = 0` does not produce zero attempts or zero delay — the
`or`-defaulting replaces them with the configuration defaults
`MAX_RETRY_ATTEMPTS = 3` and `RETRY_DELAY = 1` at decoration time, so the
wrapped function is always invoked at least once and every retry-sleep
duration is positive. -/
theorem c10_falsy_arguments_defaulted {α : Type} (fn : Nat → Except (List Char) α)
    (expo : Bool) :
    orDefaultNat (some 0) MAX_RETRY_ATTEMPTS = 3 ∧
    orDefaultRat (some 0) RETRY_DELAY = 1 ∧
    1 ≤ (with_retry (some 0) (some 0) expo fn).calls ∧
    ∀ d ∈ (with_retry (some 0) (some 0) expo fn).sleeps, 0 < d := by
  refine ⟨rfl, by norm_num [orDefaultRat, RETRY_DELAY], ?_, ?_⟩
  · exact with_retry_go_calls_pos fn _ expo 0 _ none (by decide)
  · intro d hd
    have hbd : (0:ℚ) < orDefaultRat (some 0) RETRY_DELAY := by
      norm_num [orDefaultRat, RETRY_DELAY]
    exact with_retry_go_sleeps_pos fn _ expo hbd _ 0 none d hd

/-- C10 witness: with `max_attempts = 0`, `base_delay = 0` and no
exponential backoff, the always-failing function is still invoked (3
times), and the concrete sleep duration 1 performed by the loop is
positive. -/
theorem c10_falsy_arguments_defaulted_witness :
    1 ≤ (with_retry (some 0) (some 0) false alwaysTimeout).calls ∧ (0:ℚ) < 1 :=
  ⟨(c10_falsy_arguments_defaulted alwaysTimeout false).2.2.1,
   (c10_falsy_arguments_defaulted alwaysTimeout false).2.2.2 1 (by decide)⟩

/-- C7: `handle_language_operation` walks the fallback chain in order and
returns the operation's result for the first candidate language on which it
succeeds, having invoked the operation exactly on the candidates up to and
including that one (never on later ones); and when the operation fails on
every candidate it raises a `LanguageError` wrapping the last candidate's
failure instead of returning a degraded value. -/
theorem c7_language_operation_chain {α : Type} (language : PyStrInput)
    (fn : List Char → Except (List Char) α) :
    (∀ (i : Nat) (v : α), i < (get_language_fallback_chain language).length →
      (∀ j, j < i → ∃ e, fn ((get_language_fallback_chain language).getD j []) = .error e) →
      fn ((get_language_fallback_chain language).getD i []) = .ok v →
      handle_language_operation language fn =
        (.ok v, (get_language_fallback_chain language).take (i + 1))) ∧
    ((∀ c ∈ get_language_fallback_chain language, ∃ e, fn c = .error e) →
      ∃ e, fn ((get_language_fallback_chain language).getLastD []) = .error e ∧
        handle_language_operation language fn =
          (.languageErrorAllFailed e, get_language_fallback_chain language)) := by
  rcases chain_cases language with h | ⟨s, _, _, hd, h⟩
  · constructor
    · intro i v hi hfirst hok
      rw [h] at hi
      simp only [List.length_singleton] at hi
      obtain rfl : i = 0 := by omega
      rw [h] at hok
      simp only [List.getD_cons_zero] at hok
      simp [handle_language_operation, h, handle_language_operation_go, hok]
    · intro hfail
      obtain ⟨e, he⟩ := hfail DEFAULT_LANGUAGE (by simp [h])
      refine ⟨e, ?_, ?_⟩
      · rw [h]
        simpa using he
      · simp [handle_language_operation, h, handle_language_operation_go, he]
  · constructor
    · intro i v hi hfirst hok
      rw [h] at hi
      simp only [List.length_cons, List.length_nil] at hi
      have hi01 : i = 0 ∨ i = 1 := by omega
      rcases hi01 with rfl | rfl
      · rw [h] at hok
        simp only [List.getD_cons_zero] at hok
        simp [handle_language_operation, h, handle_language_operation_go, hok]
      · obtain ⟨e, he⟩ := hfirst 0 (by omega)
        rw [h] at he hok
        simp only [List.getD_cons_zero] at he
        simp only [List.getD_cons_succ, List.getD_cons_zero] at hok
        simp [handle_language_operation, h, handle_language_operation_go, he, hok, hd]
    · intro hfail
      obtain ⟨e1, he1⟩ := hfail (pyLower s) (by simp [h])
      obtain ⟨e2, he2⟩ := hfail DEFAULT_LANGUAGE (by simp [h])
      refine ⟨e2, ?_, ?_⟩
      · rw [h]
        simpa using he2
      · simp [handle_language_operation, h, handle_language_operation_go, he1, he2, hd]

/-- C7 witness: with requested language `"HI"` and an operation failing for
`"hi"` but succeeding for `"en"`, the handler returns the `"en"` result
after invoking exactly the two chain candidates; and with an operation
failing for every candidate it raises the `LanguageError` wrapping the
last failure. -/
theorem c7_language_operation_chain_witness :
    handle_language_operation (.pyStr "HI".toList)
        (fun c => if c = "hi".toList then (.error "boom".toList : Except (List Char) Nat)
          else .ok 42) =
      (.ok 42, (get_language_fallback_chain (.pyStr "HI".toList)).take 2) ∧
    ∃ e, (fun (_ : List Char) => (.error "down".toList : Except (List Char) Nat))
        ((get_language_fallback_chain (.pyStr "HI".toList)).getLastD []) = .error e ∧
      handle_language_operation (.pyStr "HI".toList)
          (fun _ => (.error "down".toList : Except (List Char) Nat)) =
        (.languageErrorAllFailed e, get_language_fallback_chain (.pyStr "HI".toList)) :=
  ⟨(c7_language_operation_chain (.pyStr "HI".toList)
      (fun c => if c = "hi".toList then (.error "boom".toList : Except (List Char) Nat)
        else .ok 42)).1 1 42 (by decide)
      (by
        intro j hj
        interval_cases j
        exact ⟨"boom".toList, by decide⟩)
      (by decide),
   (c7_language_operation_chain (.pyStr "HI".toList)
      (fun _ => (.error "down".toList : Except (List Char) Nat))).2
      (fun c _ => ⟨"down".toList, rfl⟩)⟩

/-- Sanity check: an unclassified error message ("unknown") defaults to
retryable, and the classifier is case-insensitive. -/
theorem classifier_sanity :
    is_retryable_error "something odd".toList = true ∧
    is_retryable_error "RATE LIMIT reached".toList = true ∧
    is_retryable_error "Invalid API Key".toList = false := by decide

end NewsFlash
